import Mathlib

/-!
Verification of the `pysagredo` LLM client (`src/pysagredo/llm/__init__.py`)
and of the checker-client scenario exercised by `src/tests/test_gym.py`.

The Python module is shallowly embedded below: each Python function becomes a
Lean definition of the same name; the HTTP transport is modelled by passing the
sequence of `ApiResponse` values the server would produce, and the
`backoff.on_exception(backoff.expo, HTTPError)` decorator (which, with its
default `max_tries = None` and `max_time = None`, re-invokes the wrapped
function whenever it raises `HTTPError`, without any bound) is modelled by an
explicit fuel-indexed retry loop where `none` means "still retrying after
`fuel` attempts".
-/

namespace Pysagredo

/-- Python `str.upper` on the ASCII role strings used here: uppercase every
character. -/
def pyUpper (s : String) : String := ⟨s.data.map Char.toUpper⟩

/-- The `SYSTEM_MESSAGE` string constant (lines 11-56 of
`src/pysagredo/llm/__init__.py`), transcribed byte for byte. -/
def SYSTEM_MESSAGE : String :=
"You are a pure mathematician who is an expert in the Lean 4 theorem prover. Your job is help your user write Lean proofs.
I want to remind you that we're using Lean 4, not the older Lean 3, and there have been some syntax changes. In particular:
- Type constants are now UpperCamelCase, eg `Nat`, `List`.
- Term constants and variables are now `lowerCamelCase` rather than `snake_case`. For example, we now have `NumberTheory.Divisors.properDivisors instead of `number_theory.divisors.proper_divisors`.
- Pure functions are now written with the syntax `fun x => f x`. The old `λ x, f x` syntax will not work.
- We now enter tactic mode using the `by` keyword. The syntax `begin... end` will not work.
- Instead of being separated by a comma, tactics are separated by a newline. For example, we could write.
```lean
theorem test (p q : Prop) (hp : p) (hq : q) : p ∧ q ∧ p := by
  apply And.intro hp
  exact And.intro hq hp
```
- In the `rw` tactic you must enclose the lemmas in square brackets, even if there is just one. For example `rw h1` is now `rw [h1]`.
- The `induction` tactic now uses a structured format, like pattern matching. For example, in Lean 4 we can write
```lean
theorem zero_add (n : Nat) : 0 + n = n := by
  induction n with
  | zero => rfl
  | succ n ih => rw [Nat.add_succ, ih]
```
  Alternatively you can still use `induction' with x y ih`, like in Lean 3.
- The `cases` tactic now uses a structured format, like pattern matching. For example, in Lean 4 we can write
```lean
example (p q : Prop) : p ∨ q → q ∨ p := by
  intro h
  cases h with
  | inl hp => apply Or.inr; exact hp
  | inr hq => apply Or.inl; exact hq
" ++
"The following is a description of some commonly used tactics. Of course, feel free to use tactics outside of this list. Remember that it is good style to use high-level automations like `simp` and `ring` instead of manually performing low-level manipulations. \n" ++
"- `abel`: reduces expressions in additive, commutative monoids/groups to a normal form. \n" ++
"- `apply`: the tactic `apply e` matches the current goal against the conclusion of `e`. If it succeeds, the new goal states are the premises of `e`.\n" ++
"- `continuity`: attempts to prove goals of the form `continuous f` by applying lemmas tagged with the `continuity` attribute. \n" ++
"- `contrapose`: transforms the goal into its contrapositive.\n" ++
"- `convert`: The tactic `convert e` is similar to `refine e`, except the type of `e` is not required to exactly match the goal. Any rewrites required to transform `e` into the goal become the new goal state.\n" ++
"- `group`: normalizes expressions in multiplicative groups, without assuming commutativity.\n" ++
"- `have`: `have h : t := p` adds the hypothesis `h : t` to the current goal. If you want to prove `h` in tactic mode, use the syntax `have h : t := by --tactic proof goes here`. \n" ++
"- `linarith`: proves any goal that consists of linear arithemtic.\n" ++
"- `nlinarith`: version of `linarith` that can tolerate some nonlinearity.\n" ++
"- `norm_num`: normalizes numerical expressions.\n" ++
"- `polyrith`: proves polynomial equalities.\n" ++
"- `push_neg`: pushes negations through quantifiers.\n" ++
"- `simp`: uses lemmas and hypotheses tagged with the `simp` attribute to simplify the goal. Use `simp [h1, h2,..., hn]` to add `h1, h2,..., hn` to the list of lemmas used by simp.\n" ++
"- `ring`: tactic for solving goals involving expressions in commutative rings and normalizing expressions in commutative rings.\n"

/-- `PROOF_INSTRUCTION` (lines 58-60). -/
def PROOF_INSTRUCTION : String :=
"1. Please write out a plan for proceeding with the proof. Write your plan in English (with LaTeX).
2. Please add the next tactic step to the proof. Include the new version of your (possibly incomplete) proof in a lean code block. Make sure the code block is self-contained and runs. Do not add more than one new tactic step."

/-- `AUTOFORMALIZE_PROOF_INSTRUCTION` (lines 62-65). -/
def AUTOFORMALIZE_PROOF_INSTRUCTION : String :=
"1. Please plan out a plan for your formal proof. You can use the natural language proof as a guide, but there is no need to follow it exactly, or at all.
2. Please add the next tactic step to the proof. Include the new version of your (possibly incomplete) proof in a lean code block. Make sure the code block is self-contained and runs. Do not add more than one new tactic step. If you introduce a new lemma in a `have` statement, only supply one tactic step in the proof of the lemma."

/-- `f2f_initial_prompt` (lines 67-75): Python f-string with `{code}` and
`{PROOF_INSTRUCTION}` spliced in. -/
def f2f_initial_prompt (code : String) : String :=
"I am going to show you an incomplete proof and the accompanying goal state. I will ask you to complete the proof step by step, adding one tactic step in each response. \n" ++
"\n" ++
"Here is my Lean code so far: \n" ++
"```lean\n" ++ code ++ "\n```\n" ++ PROOF_INSTRUCTION

/-- `autoformalize_proof_initial_prompt` (lines 77-91).  The Python literal
`\\begin{{theorem}}` denotes the text `\begin{theorem}`. -/
def autoformalize_proof_initial_prompt (nl_statement nl_proof code : String) : String :=
"I am going to show you a natural language proof of a theorem and a corresponding formal theorem statement in Lean 4. Your job will be to write a formal proof of the formal theorem statement, using the natural language proof as a hint.

Here are the natural language theorem and proof:
\\begin\x7btheorem\x7d
    " ++ nl_statement ++ "
\\end\x7btheorem\x7d
" ++ nl_proof ++ "

Below is the Lean code I would like you to complete.
```lean
" ++ code ++ "
```
" ++ AUTOFORMALIZE_PROOF_INSTRUCTION

/-- `autoformalize_statement_and_proof_initial_prompt` (lines 93-108); note the
trailing `"\n"` kept by that f-string. -/
def autoformalize_statement_and_proof_initial_prompt (nl_statement nl_proof code : String) : String :=
"I am going to show you a natural language theorem statement and natural language proof of that theorem. Your job will be to formalize the statement of the theorem in Lean 4 and formally prove the statement. \n" ++
"\n" ++
"Here are the natural language theorem and proof:\n" ++
"\\begin\x7btheorem\x7d\n    " ++ nl_statement ++ "\n\\end\x7btheorem\x7d\n" ++ nl_proof ++ "\n" ++
"\n" ++
"Here is the code template for your formalization. \n" ++
"```lean\n" ++ code ++ "\n```\n" ++ AUTOFORMALIZE_PROOF_INSTRUCTION ++ "\n"

/-- `prove_unsolved_goals_prompt` (lines 110-116). -/
def prove_unsolved_goals_prompt (goal_state : String) : String :=
"Here is the new goal state:
```lean
" ++ goal_state ++ "
```
" ++ PROOF_INSTRUCTION

/-- `sorry_prompt` (lines 118-121). -/
def sorry_prompt : String :=
"There is a sorry in your code. Please do not write any code that contains sorries. Instead, finish typing at the location where you want to see the goal state. Remove the sorry, but do not add any new tactic steps."

/-- `ChatMessage` (lines 123-125): a role/content pair. -/
structure ChatMessage where
  role : String
  content : String
deriving Repr, DecidableEq

/-- `ChatMessage.__str__` (lines 127-128): `f">>>{self.role.upper()}\n" + self.content`. -/
def ChatMessage.str (m : ChatMessage) : String :=
">>>" ++ pyUpper m.role ++ "\n" ++ m.content

/-- `ChatState` (lines 130-131): the ordered transcript. -/
structure ChatState where
  messages : List ChatMessage
deriving Repr, DecidableEq

/-- `ChatState.__str__` (lines 133-134): `"\n".join(str(x) for x in self.messages)`. -/
def ChatState.str (s : ChatState) : String :=
String.intercalate "\n" (s.messages.map ChatMessage.str)

/-- The `message` object inside one element of the `choices` array of an
OpenAI chat-completion response body. -/
structure ApiMessage where
  content : String
deriving Repr, DecidableEq

/-- One element of the `choices` array of a chat-completion response body. -/
structure ApiChoice where
  message : ApiMessage
deriving Repr, DecidableEq

/-- The observable part of one HTTP response from the completions endpoint:
its status code and the `choices` array of its JSON body. -/
structure ApiResponse where
  status_code : Nat
  choices : List ApiChoice
deriving Repr, DecidableEq

/-- The Python exceptions `generate_message` can raise: the bare `HTTPError`
re-raised on a non-200 status (line 160), and the `IndexError` that
`r.json()["choices"][0]` raises when a 200 body has an empty `choices` array
(line 162). -/
inductive PyError where
  | httpError
  | indexError
deriving Repr, DecidableEq

/-- The body of `generate_message` (lines 137-162) for one HTTP exchange,
including its diagnostic prints.  `enc` stands for the tiktoken encoder
(`enc.encode` composed with `len`); the first component is the returned value
or raised exception, the second is the list of printed lines, in order:
`print(chat_state)`, the token-count line, and `print(r, "retrying")`
(requests renders a response object as `<Response [status]>`). -/
def generate_message_attempt (enc : String → Nat) (chat_state : ChatState)
    (r : ApiResponse) : Except PyError String × List String :=
  if r.status_code ≠ 200 then
    (.error .httpError,
      [chat_state.str,
       "Chat contains approx " ++ toString (enc chat_state.str) ++ " tokens",
       "<Response [" ++ toString r.status_code ++ "]> retrying"])
  else
    match r.choices with
    | [] => (.error .indexError, [])
    | c :: _ => (.ok c.message.content, [])

/-- The value/exception part of `generate_message` alone (lines 150-162),
with the prints dropped. -/
def generate_message_result (_chat_state : ChatState) (r : ApiResponse) :
    Except PyError String :=
  if r.status_code ≠ 200 then .error .httpError
  else
    match r.choices with
    | [] => .error .indexError
    | c :: _ => .ok c.message.content

/-- The retry predicate of `@backoff.on_exception(backoff.expo, HTTPError)`
(line 136): the decorator re-invokes the wrapped function exactly when the
raised exception is an `HTTPError`. -/
def isHTTPError : Except PyError String → Bool
  | .error .httpError => true
  | _ => false

/-- The retry loop of the decorated `generate_message`, observed for `fuel`
attempts starting at request index `i` in the server's response sequence
`responses`.  `backoff.on_exception(backoff.expo, HTTPError)` is called with
neither `max_tries` nor `max_time`, so the loop has no give-up branch:
`none` means the call is still retrying after `fuel` attempts. -/
def backoffRunFrom (enc : String → Nat) (chat_state : ChatState)
    (responses : Nat → ApiResponse) (i : Nat) : Nat → Option (Except PyError String)
  | 0 => none
  | fuel + 1 =>
    let res := (generate_message_attempt enc chat_state (responses i)).1
    if isHTTPError res then backoffRunFrom enc chat_state responses (i + 1) fuel
    else some res

/-- The decorated `generate_message` as called by clients: the retry loop
started at the first request. -/
def generate_message_backoff (enc : String → Nat) (chat_state : ChatState)
    (responses : Nat → ApiResponse) (fuel : Nat) : Option (Except PyError String) :=
  backoffRunFrom enc chat_state responses 0 fuel

/-- `complete_chat` (lines 164-168): call the decorated `generate_message`
and, on success, build `ChatState(messages=[*chat_state.messages,
ChatMessage(role="assistant", content=response_text)])`. -/
def complete_chat (enc : String → Nat) (chat_state : ChatState)
    (responses : Nat → ApiResponse) (fuel : Nat) : Option (Except PyError ChatState) :=
  (generate_message_backoff enc chat_state responses fuel).map fun res =>
    res.map fun response_text =>
      ⟨chat_state.messages ++ [⟨"assistant", response_text⟩]⟩

/-- The JSON payload `generate_message` posts (lines 142-149). -/
structure Payload where
  model : String
  messages : List ChatMessage
  max_tokens : Nat
  stream : Bool
  top_p : ℚ
  temperature : ℚ
deriving Repr, DecidableEq

/-- The payload built by `generate_message` from its arguments, with the
defaults of its signature (line 137): `temperature=0.4, top_p=0.95,
max_tokens=2048, model="gpt-4"`. -/
def generate_message_payload (chat_state : ChatState) (temperature : ℚ := 0.4)
    (top_p : ℚ := 0.95) (max_tokens : Nat := 2048) (model : String := "gpt-4") :
    Payload :=
  { model := model
    messages := chat_state.messages
    max_tokens := max_tokens
    stream := false
    top_p := top_p
    temperature := temperature }

/-- The payload submitted by `generate_message_lean_single` (lines 170-171):
`generate_message` applied, with all generation parameters left at their
defaults, to the two-message transcript `[system: SYSTEM_MESSAGE, user: input]`. -/
def generate_message_lean_single_payload (input : String) : Payload :=
  generate_message_payload ⟨[⟨"system", SYSTEM_MESSAGE⟩, ⟨"user", input⟩]⟩

/-- One severity-tagged diagnostic message of a checker feedback. -/
structure CheckerMessage where
  severity : String
  data : String
deriving Repr, DecidableEq

/-- The structured feedback of one checker invocation: diagnostic messages,
outstanding goal descriptors, and the opaque environment handle. -/
structure CheckerFeedback where
  messages : List CheckerMessage
  sorries : List String
  env : Nat
deriving Repr, DecidableEq

/-- An elaboration environment of the modelled checker: the definitions
(name, value) accepted so far, in order. -/
abbrev CheckerEnv := List (List Char × List Char)

/-- Split a character list at the first occurrence of the separator `sep`
(assumed nonempty), returning the parts before and after it. -/
def splitFirst (sep : List Char) : List Char → Option (List Char × List Char)
  | [] => none
  | c :: rest =>
    if sep.isPrefixOf (c :: rest) then some ([], (c :: rest).drop sep.length)
    else
      match splitFirst sep rest with
      | some (a, b) => some (c :: a, b)
      | none => none

/-- Recognize a snippet of the shape `def <name> := <value>`. -/
def parseDefCmd (s : List Char) : Option (List Char × List Char) :=
  if "def ".data.isPrefixOf s then splitFirst " := ".data (s.drop 4) else none

/-- Recognize a snippet of the shape `#check (rfl : <name> = <value>)`,
with or without a space after `rfl`. -/
def parseCheckRflCmd (s : List Char) : Option (List Char × List Char) :=
  if "#check (rfl".data.isPrefixOf s then
    let rest := (s.drop 11).dropWhile fun c => c == ':' || c == ' '
    match splitFirst " = ".data rest with
    | some (nm, tail) =>
      match splitFirst ")".data tail with
      | some (v, _) => some (nm, v)
      | none => none
    | none => none
  else none

/-- Modelled from the spec: `ProofSearch.run_code` of `lean4_agent.gym` is not
under `src/` (only its test `src/tests/test_gym.py` is), so the Checker Client
is modelled from the spec's words: it accepts a source snippet and an optional
prior opaque environment handle, elaborates the new snippet on top of the
elaboration state the handle denotes (an empty state when no handle is given),
and returns severity-tagged diagnostic messages, outstanding-goal descriptors,
and a fresh opaque handle for the resulting state.  The checker session keeps
the states reached so far in `envs`; a handle is an index into that store.
A `def name := value` snippet extends the state with that definition and
reports no diagnostics; a `#check (rfl : name = value)` snippet elaborates
against the state and reports an info message when the state holds exactly
that definition, and an error-severity message otherwise (unknown identifier
or type mismatch); any other snippet is outside the model and reports an
error. -/
def run_code (envs : List CheckerEnv) (source : String) (env : Option Nat) :
    CheckerFeedback × List CheckerEnv :=
  let base : CheckerEnv :=
    match env with
    | some i => envs.getD i []
    | none => []
  match parseDefCmd source.data with
  | some (nm, v) =>
    (⟨[], [], envs.length⟩, envs ++ [base ++ [(nm, v)]])
  | none =>
    match parseCheckRflCmd source.data with
    | some (nm, v) =>
      if base.contains (nm, v) then
        (⟨[⟨"info", String.mk nm ++ " = " ++ String.mk v⟩], [], envs.length⟩,
         envs ++ [base])
      else
        (⟨[⟨"error", "unknown identifier or type mismatch: " ++ String.mk nm⟩],
          [], envs.length⟩, envs ++ [base])
    | none =>
      (⟨[⟨"error", "unsupported snippet"⟩], [], envs.length⟩, envs ++ [base])

lemma intercalate_go_append (sep x acc : String) (l : List String) :
    String.intercalate.go acc sep (l ++ [x]) =
      String.intercalate.go acc sep l ++ sep ++ x := by
  induction l generalizing acc with
  | nil => rfl
  | cons a t ih => exact ih (acc ++ sep ++ a)

lemma chatState_str_append (msgs : List ChatMessage) (M : ChatMessage) :
    ChatState.str ⟨msgs ++ [M]⟩ =
      if msgs.isEmpty then M.str else ChatState.str ⟨msgs⟩ ++ "\n" ++ M.str := by
  cases msgs with
  | nil => rfl
  | cons a t =>
    show String.intercalate.go a.str "\n" (List.map ChatMessage.str (t ++ [M])) = _
    rw [List.map_append]
    exact intercalate_go_append "\n" M.str a.str (t.map ChatMessage.str)

/-- C1: `ChatState.__str__` is the newline-joined concatenation of
`">>>" + role.upper() + "\n" + content` over the messages in insertion order;
it is deterministic (equal transcripts render equally), and appending a
message `M` renders as the old rendering followed by a newline and `M`'s
rendering, so `M`'s content appears after every previously appended
message's content. -/
theorem transcript_render_deterministic_order :
    (∀ s : ChatState,
      s.str = String.intercalate "\n"
        (s.messages.map fun m => ">>>" ++ pyUpper m.role ++ "\n" ++ m.content)) ∧
    (∀ s₁ s₂ : ChatState, s₁.messages = s₂.messages → s₁.str = s₂.str) ∧
    (∀ (msgs : List ChatMessage) (M : ChatMessage),
      ChatState.str ⟨msgs ++ [M]⟩ =
        if msgs.isEmpty then M.str
        else ChatState.str ⟨msgs⟩ ++ "\n" ++ M.str) :=
  ⟨fun _ => rfl,
   fun s₁ s₂ h => by cases s₁; cases s₂; cases h; rfl,
   chatState_str_append⟩

/-- Witness for C1 at concrete transcripts: determinism applied to two equal
two-message transcripts, and a concrete rendering evaluated in full. -/
theorem transcript_render_deterministic_order_witness :
    ChatState.str ⟨[⟨"system", "s0"⟩] ++ []⟩ = ChatState.str ⟨[⟨"system", "s0"⟩]⟩ ∧
    ChatState.str ⟨[⟨"system", "a"⟩, ⟨"user", "b"⟩]⟩ = ">>>SYSTEM\na\n>>>USER\nb" :=
  ⟨transcript_render_deterministic_order.2.1 ⟨[⟨"system", "s0"⟩] ++ []⟩
      ⟨[⟨"system", "s0"⟩]⟩ (by simp),
   by decide⟩

lemma generate_message_attempt_fst (enc : String → Nat) (chat : ChatState)
    (r : ApiResponse) :
    (generate_message_attempt enc chat r).1 = generate_message_result chat r := by
  unfold generate_message_attempt generate_message_result
  split
  · rfl
  · split <;> rfl

lemma backoffRunFrom_fail_step (enc : String → Nat) (chat : ChatState)
    (responses : Nat → ApiResponse) (i fuel : Nat)
    (h : (responses i).status_code ≠ 200) :
    backoffRunFrom enc chat responses i (fuel + 1) =
      backoffRunFrom enc chat responses (i + 1) fuel := by
  have hres : (generate_message_attempt enc chat (responses i)).1 =
      .error .httpError := by
    rw [generate_message_attempt_fst]
    unfold generate_message_result
    rw [if_pos h]
  simp only [backoffRunFrom, hres, isHTTPError, if_true]

lemma backoffRunFrom_stop_step (enc : String → Nat) (chat : ChatState)
    (responses : Nat → ApiResponse) (i fuel : Nat)
    (h : (responses i).status_code = 200) :
    backoffRunFrom enc chat responses i (fuel + 1) =
      some (generate_message_result chat (responses i)) := by
  have hnot : isHTTPError (generate_message_result chat (responses i)) = false := by
    unfold generate_message_result
    rw [if_neg (by simp [h])]
    cases hc : (responses i).choices <;> simp [isHTTPError]
  simp only [backoffRunFrom, generate_message_attempt_fst, hnot,
    Bool.false_eq_true, if_false]

lemma backoffRunFrom_skip_failures (enc : String → Nat) (chat : ChatState)
    (responses : Nat → ApiResponse) :
    ∀ N i, (∀ k, k < N → (responses (i + k)).status_code ≠ 200) →
      ∀ fuel, backoffRunFrom enc chat responses i (N + fuel) =
        backoffRunFrom enc chat responses (i + N) fuel := by
  intro N
  induction N with
  | zero => intro i _ fuel; simp
  | succ n ih =>
    intro i h fuel
    have h0 : (responses i).status_code ≠ 200 := by
      simpa using h 0 (Nat.succ_pos n)
    have step : backoffRunFrom enc chat responses i (n + 1 + fuel) =
        backoffRunFrom enc chat responses (i + 1) (n + fuel) := by
      have : n + 1 + fuel = (n + fuel) + 1 := by omega
      rw [this]
      exact backoffRunFrom_fail_step enc chat responses i (n + fuel) h0
    rw [step, ih (i + 1) (fun k hk => by
      have := h (k + 1) (by omega)
      simpa [Nat.add_assoc, Nat.add_comm 1 k] using this) fuel]
    congr 1
    omega

/-- C2 (amended): `backoff.on_exception(backoff.expo, HTTPError)` is applied
with its defaults (`max_tries = None`, `max_time = None`), so retries are
unbounded: after any finite number `N` of non-200 responses followed by a
successful one, the decorated `generate_message` returns the success value;
and when every response fails, the call never completes — it neither returns
nor raises any `OracleUnavailable`-like give-up error (no such error exists
in the code; the code re-raises a bare `HTTPError`, which the decorator
always catches). -/
theorem oracle_retry_unbounded :
    (∀ (enc : String → Nat) (chat : ChatState) (responses : Nat → ApiResponse)
        (N : Nat) (v : String),
      (∀ k, k < N → (responses k).status_code ≠ 200) →
      generate_message_result chat (responses N) = .ok v →
      generate_message_backoff enc chat responses (N + 1) = some (.ok v)) ∧
    (∀ (enc : String → Nat) (chat : ChatState) (responses : Nat → ApiResponse),
      (∀ k, (responses k).status_code ≠ 200) →
      ∀ fuel, generate_message_backoff enc chat responses fuel = none) := by
  constructor
  · intro enc chat responses N v hfail hok
    unfold generate_message_backoff
    have hs : (responses N).status_code = 200 := by
      by_contra hne
      rw [generate_message_result, if_pos hne] at hok
      exact Except.noConfusion hok
    rw [backoffRunFrom_skip_failures enc chat responses N 0
          (fun k hk => by simpa using hfail k hk) 1]
    rw [show 0 + N = N by omega]
    rw [backoffRunFrom_stop_step enc chat responses N 0 hs, hok]
  · intro enc chat responses hfail
    have all : ∀ fuel i, backoffRunFrom enc chat responses i fuel = none := by
      intro fuel
      induction fuel with
      | zero => intro i; rfl
      | succ n ih =>
        intro i
        rw [backoffRunFrom_fail_step enc chat responses i n (hfail i)]
        exact ih (i + 1)
    intro fuel
    exact all fuel 0

/-- Counterexample to C2 as stated: there is no retry ceiling.  After 100
consecutive retryable failures (more than any plausible ceiling) the
decorated call has neither returned nor raised a give-up error — it is still
retrying — and the 101st request is still issued: a success at attempt 101 is
returned rather than any `OracleUnavailable` failure. -/
theorem oracle_retry_ceiling_counterexample :
    generate_message_backoff String.length ⟨[]⟩ (fun _ => ⟨429, []⟩) 100 = none ∧
    generate_message_backoff String.length ⟨[]⟩
      (fun k => if k < 100 then ⟨429, []⟩ else ⟨200, [⟨⟨"late"⟩⟩]⟩) 101 =
        some (.ok "late") :=
  ⟨rfl, rfl⟩

/-- C3 (amended): `generate_message` raises the same bare `HTTPError` on
every non-200 status — malformed-request (400) and authentication (401)
failures included — and the decorator retries exactly on `HTTPError`; so a
retry happens after every non-200 response whatever its error class, and only
a status-200 response (whose outcome, return or `IndexError`, is not an
`HTTPError`) stops the retry loop. -/
theorem retry_exactly_on_http_error :
    ∀ (enc : String → Nat) (chat : ChatState) (responses : Nat → ApiResponse)
      (fuel : Nat),
      (isHTTPError (generate_message_result chat (responses 0)) = true ↔
        (responses 0).status_code ≠ 200) ∧
      ((responses 0).status_code ≠ 200 →
        generate_message_backoff enc chat responses (fuel + 1) =
          backoffRunFrom enc chat responses 1 fuel) ∧
      ((responses 0).status_code = 200 →
        generate_message_backoff enc chat responses (fuel + 1) =
          some (generate_message_result chat (responses 0))) := by
  intro enc chat responses fuel
  refine ⟨⟨fun h => ?_, fun h => ?_⟩, fun h => ?_, fun h => ?_⟩
  · intro hs
    rw [generate_message_result, if_neg (by simp [hs])] at h
    cases hc : (responses 0).choices with
    | nil => rw [hc] at h; simp [isHTTPError] at h
    | cons c rest => rw [hc] at h; simp [isHTTPError] at h
  · rw [generate_message_result, if_pos h]; rfl
  · exact backoffRunFrom_fail_step enc chat responses 0 fuel h
  · exact backoffRunFrom_stop_step enc chat responses 0 fuel h

/-- Counterexample to C3 as stated: a 401 (authentication failure, a
non-retryable class per the claim) response does not make the call fail
without further requests — a second request is issued and its value is
returned. -/
theorem retry_on_nonretryable_counterexample :
    generate_message_backoff String.length ⟨[]⟩
      (fun k => if k = 0 then ⟨401, []⟩ else ⟨200, [⟨⟨"second"⟩⟩]⟩) 2 =
        some (.ok "second") :=
  rfl

/-- Witness for C3 (amended) at a concrete 401 response. -/
theorem retry_exactly_on_http_error_witness :
    generate_message_backoff String.length ⟨[]⟩ (fun _ => ⟨401, []⟩) 1 =
      backoffRunFrom String.length ⟨[]⟩ (fun _ => ⟨401, []⟩) 1 0 :=
  (retry_exactly_on_http_error String.length ⟨[]⟩ (fun _ => ⟨401, []⟩) 0).2.1
    (by decide)

/-- Witness for C2 (amended): two failures then a success returns the success
value, and a run of everywhere-failing responses is still unresolved after
five attempts. -/
theorem oracle_retry_unbounded_witness :
    generate_message_backoff String.length ⟨[]⟩
      (fun k => if k < 2 then ⟨500, []⟩ else ⟨200, [⟨⟨"ok"⟩⟩]⟩) 3 =
        some (.ok "ok") ∧
    generate_message_backoff String.length ⟨[]⟩ (fun _ => ⟨503, []⟩) 5 = none :=
  ⟨oracle_retry_unbounded.1 String.length ⟨[]⟩
      (fun k => if k < 2 then ⟨500, []⟩ else ⟨200, [⟨⟨"ok"⟩⟩]⟩) 2 "ok"
      (by decide) rfl,
   oracle_retry_unbounded.2 String.length ⟨[]⟩ (fun _ => ⟨503, []⟩)
      (fun _ => (by decide : (503 : Nat) ≠ 200)) 5⟩

/-- C4: when the decorated `generate_message` succeeds with text `t`,
`complete_chat` returns a `ChatState` whose message list is the input's
messages, unchanged and in order (they are the prefix of the output of the
input's length), followed by exactly one new message with role `"assistant"`
and content `t`; the input `ChatState` is a value and is not mutated. -/
theorem complete_chat_appends_one_assistant :
    ∀ (enc : String → Nat) (chat : ChatState) (responses : Nat → ApiResponse)
      (fuel : Nat) (t : String),
      generate_message_backoff enc chat responses fuel = some (.ok t) →
      complete_chat enc chat responses fuel =
        some (.ok ⟨chat.messages ++ [⟨"assistant", t⟩]⟩) ∧
      (chat.messages ++ [(⟨"assistant", t⟩ : ChatMessage)]).take
          chat.messages.length = chat.messages ∧
      (chat.messages ++ [(⟨"assistant", t⟩ : ChatMessage)]).drop
          chat.messages.length = [⟨"assistant", t⟩] := by
  intro enc chat responses fuel t h
  refine ⟨?_, ?_, ?_⟩
  · unfold complete_chat
    rw [h]
    rfl
  · exact List.take_left chat.messages _
  · exact List.drop_left chat.messages _

/-- Witness for C4 at a concrete one-message transcript and a single
successful response. -/
theorem complete_chat_appends_one_assistant_witness :
    complete_chat String.length ⟨[⟨"user", "q"⟩]⟩ (fun _ => ⟨200, [⟨⟨"ans"⟩⟩]⟩) 1 =
      some (.ok ⟨[⟨"user", "q"⟩] ++ [⟨"assistant", "ans"⟩]⟩) ∧
    ([⟨"user", "q"⟩] ++ [⟨"assistant", "ans"⟩] : List ChatMessage).take 1 =
      [⟨"user", "q"⟩] ∧
    ([⟨"user", "q"⟩] ++ [⟨"assistant", "ans"⟩] : List ChatMessage).drop 1 =
      [⟨"assistant", "ans"⟩] :=
  complete_chat_appends_one_assistant String.length ⟨[⟨"user", "q"⟩]⟩
    (fun _ => ⟨200, [⟨⟨"ans"⟩⟩]⟩) 1 "ans" rfl

set_option maxRecDepth 8000 in
/-- C5: the follow-up prompt built for an outstanding goal embeds the goal
state string verbatim as a contiguous substring, between a prefix ending in
the opening of a fenced lean code block and a suffix starting with its
close. -/
theorem prove_unsolved_goals_prompt_embeds_goal :
    ∀ goal_state : String, ∃ pre post : String,
      prove_unsolved_goals_prompt goal_state = pre ++ goal_state ++ post ∧
      "```lean\n".data.isSuffixOf pre.data = true ∧
      "\n```\n".data.isPrefixOf post.data = true := by
  intro goal_state
  refine ⟨"Here is the new goal state:\n```lean\n",
    "\n```\n" ++ PROOF_INSTRUCTION, ?_, by decide, ?_⟩
  · unfold prove_unsolved_goals_prompt
    simp [String.append_assoc]
  · show ("\n```\n".data ++ PROOF_INSTRUCTION.data).isPrefixOf
      ("\n```\n" ++ PROOF_INSTRUCTION).data = true
    simp [String.data_append]

/-- Counterexample to C6 as stated: raising is not equivalent to a non-200
status.  On a response with status 200 whose body's `choices` array is empty,
`generate_message` does not return a completion text — the body indexing
`r.json()["choices"][0]` raises — although the status is the success
status. -/
theorem generate_message_malformed_200_counterexample :
    generate_message_result ⟨[]⟩ ⟨200, []⟩ = .error .indexError :=
  rfl

/-- C6 (amended): `generate_message` raises `HTTPError` for every response
with a non-200 status; on a 200-status response it returns the content of
the first choice's message provided the body has at least one choice, and
raises `IndexError` when the `choices` array is empty — so raising on a
non-success status holds, but the converse (never raising on 200) does
not. -/
theorem generate_message_success_dispatch :
    ∀ (chat : ChatState) (r : ApiResponse),
      (r.status_code ≠ 200 → generate_message_result chat r = .error .httpError) ∧
      (∀ c rest, r.status_code = 200 → r.choices = c :: rest →
        generate_message_result chat r = .ok c.message.content) ∧
      (r.status_code = 200 → r.choices = [] →
        generate_message_result chat r = .error .indexError) := by
  intro chat r
  refine ⟨fun h => ?_, fun c rest hs hc => ?_, fun hs hc => ?_⟩
  · rw [generate_message_result, if_pos h]
  · rw [generate_message_result, if_neg (by simp [hs]), hc]
  · rw [generate_message_result, if_neg (by simp [hs]), hc]

/-- Witness for C6 (amended) at concrete responses: a 503 failure, a
well-formed 200 success, and a malformed 200 body. -/
theorem generate_message_success_dispatch_witness :
    generate_message_result ⟨[]⟩ ⟨503, []⟩ = .error .httpError ∧
    generate_message_result ⟨[]⟩ ⟨200, [⟨⟨"hello"⟩⟩]⟩ = .ok "hello" ∧
    generate_message_result ⟨[]⟩ ⟨200, []⟩ = .error .indexError :=
  ⟨(generate_message_success_dispatch ⟨[]⟩ ⟨503, []⟩).1 (by decide),
   (generate_message_success_dispatch ⟨[]⟩ ⟨200, [⟨⟨"hello"⟩⟩]⟩).2.1
      ⟨⟨"hello"⟩⟩ [] rfl rfl,
   (generate_message_success_dispatch ⟨[]⟩ ⟨200, []⟩).2.2 rfl rfl⟩

lemma f2f_initial_prompt_decomp (c : String) :
    f2f_initial_prompt c =
      ("I am going to show you an incomplete proof and the accompanying goal state. I will ask you to complete the proof step by step, adding one tactic step in each response. \n" ++
        "\n" ++ "Here is my Lean code so far: \n" ++ "```lean\n") ++ c ++
      ("\n```\n" ++ PROOF_INSTRUCTION) := by
  unfold f2f_initial_prompt
  simp [String.append_assoc]

lemma autoformalize_proof_initial_prompt_decomp (s p c : String) :
    autoformalize_proof_initial_prompt s p c =
      "I am going to show you a natural language proof of a theorem and a corresponding formal theorem statement in Lean 4. Your job will be to write a formal proof of the formal theorem statement, using the natural language proof as a hint.\n\nHere are the natural language theorem and proof:\n\\begin\x7btheorem\x7d\n    " ++
      s ++ "\n\\end\x7btheorem\x7d\n" ++ p ++
      "\n\nBelow is the Lean code I would like you to complete.\n```lean\n" ++ c ++
      ("\n```\n" ++ AUTOFORMALIZE_PROOF_INSTRUCTION) := by
  unfold autoformalize_proof_initial_prompt
  simp [String.append_assoc]

lemma autoformalize_statement_and_proof_initial_prompt_decomp (s p c : String) :
    autoformalize_statement_and_proof_initial_prompt s p c =
      ("I am going to show you a natural language theorem statement and natural language proof of that theorem. Your job will be to formalize the statement of the theorem in Lean 4 and formally prove the statement. \n" ++
        "\n" ++ "Here are the natural language theorem and proof:\n" ++
        "\\begin\x7btheorem\x7d\n    ") ++ s ++ "\n\\end\x7btheorem\x7d\n" ++ p ++
      ("\n" ++ "\n" ++ "Here is the code template for your formalization. \n" ++
        "```lean\n") ++ c ++
      ("\n```\n" ++ AUTOFORMALIZE_PROOF_INSTRUCTION ++ "\n") := by
  unfold autoformalize_statement_and_proof_initial_prompt
  simp [String.append_assoc]

lemma prove_unsolved_goals_prompt_decomp (g : String) :
    prove_unsolved_goals_prompt g =
      "Here is the new goal state:\n```lean\n" ++ g ++
      ("\n```\n" ++ PROOF_INSTRUCTION) := by
  unfold prove_unsolved_goals_prompt
  simp [String.append_assoc]

/-- C7: the five prompt templates are pure deterministic functions: equal
inputs give equal text, each parameterized template is a fixed text template
with its inputs spliced in (so it reads no other state), and the no-argument
`sorry_prompt` is a fixed text constant. -/
theorem prompt_templates_pure :
    (∀ c₁ c₂ : String, c₁ = c₂ → f2f_initial_prompt c₁ = f2f_initial_prompt c₂) ∧
    (∀ s₁ s₂ p₁ p₂ c₁ c₂ : String, s₁ = s₂ → p₁ = p₂ → c₁ = c₂ →
      autoformalize_proof_initial_prompt s₁ p₁ c₁ =
        autoformalize_proof_initial_prompt s₂ p₂ c₂) ∧
    (∀ s₁ s₂ p₁ p₂ c₁ c₂ : String, s₁ = s₂ → p₁ = p₂ → c₁ = c₂ →
      autoformalize_statement_and_proof_initial_prompt s₁ p₁ c₁ =
        autoformalize_statement_and_proof_initial_prompt s₂ p₂ c₂) ∧
    (∀ g₁ g₂ : String, g₁ = g₂ →
      prove_unsolved_goals_prompt g₁ = prove_unsolved_goals_prompt g₂) ∧
    (∃ pre post, ∀ c, f2f_initial_prompt c = pre ++ c ++ post) ∧
    (∃ a b d e, ∀ s p c,
      autoformalize_proof_initial_prompt s p c = a ++ s ++ b ++ p ++ d ++ c ++ e) ∧
    (∃ a b d e, ∀ s p c,
      autoformalize_statement_and_proof_initial_prompt s p c =
        a ++ s ++ b ++ p ++ d ++ c ++ e) ∧
    (∃ pre post, ∀ g, prove_unsolved_goals_prompt g = pre ++ g ++ post) :=
  ⟨fun _ _ h => by rw [h],
   fun _ _ _ _ _ _ h1 h2 h3 => by rw [h1, h2, h3],
   fun _ _ _ _ _ _ h1 h2 h3 => by rw [h1, h2, h3],
   fun _ _ h => by rw [h],
   ⟨_, _, f2f_initial_prompt_decomp⟩,
   ⟨_, _, _, _, autoformalize_proof_initial_prompt_decomp⟩,
   ⟨_, _, _, _, autoformalize_statement_and_proof_initial_prompt_decomp⟩,
   ⟨_, _, prove_unsolved_goals_prompt_decomp⟩⟩

/-- Witness for C7: template determinism applied at concrete equal inputs. -/
theorem prompt_templates_pure_witness :
    f2f_initial_prompt "example : 2 = 2 := by" =
      f2f_initial_prompt "example : 2 = 2 := by" :=
  prompt_templates_pure.1 "example : 2 = 2 := by" "example : 2 = 2 := by" rfl

lemma backoffRunFrom_enc_irrelevant (enc₁ enc₂ : String → Nat)
    (chat : ChatState) (responses : Nat → ApiResponse) :
    ∀ fuel i, backoffRunFrom enc₁ chat responses i fuel =
      backoffRunFrom enc₂ chat responses i fuel := by
  intro fuel
  induction fuel with
  | zero => intro i; rfl
  | succ n ih =>
    intro i
    simp only [backoffRunFrom, generate_message_attempt_fst]
    rw [ih (i + 1)]

/-- C8: on every non-200 response, `generate_message` prints the rendered
transcript, a token-count estimate of it, and the response status before
raising; the raised/returned value equals the print-free semantics whatever
the token encoder reports, and the whole retry behaviour of the decorated
call is identical for any two encoders — the diagnostics do not affect the
retry decision. -/
theorem generate_message_diagnostics_observability :
    ∀ (enc₁ enc₂ : String → Nat) (chat : ChatState) (r : ApiResponse)
      (responses : Nat → ApiResponse) (fuel : Nat),
      (generate_message_attempt enc₁ chat r).1 = generate_message_result chat r ∧
      (r.status_code ≠ 200 →
        (generate_message_attempt enc₁ chat r).2 =
          [chat.str,
           "Chat contains approx " ++ toString (enc₁ chat.str) ++ " tokens",
           "<Response [" ++ toString r.status_code ++ "]> retrying"]) ∧
      generate_message_backoff enc₁ chat responses fuel =
        generate_message_backoff enc₂ chat responses fuel := by
  intro enc₁ enc₂ chat r responses fuel
  refine ⟨generate_message_attempt_fst enc₁ chat r, fun h => ?_, ?_⟩
  · unfold generate_message_attempt
    rw [if_pos h]
  · exact backoffRunFrom_enc_irrelevant enc₁ enc₂ chat responses fuel 0

/-- Witness for C8 at a concrete 429 response and two distinct encoders. -/
theorem generate_message_diagnostics_observability_witness :
    (generate_message_attempt String.length ⟨[]⟩ ⟨429, []⟩).1 =
      generate_message_result ⟨[]⟩ ⟨429, []⟩ ∧
    (generate_message_attempt String.length ⟨[]⟩ ⟨429, []⟩).2 =
      ["", "Chat contains approx 0 tokens", "<Response [429]> retrying"] ∧
    generate_message_backoff String.length ⟨[]⟩ (fun _ => ⟨429, []⟩) 3 =
      generate_message_backoff (fun _ => 7) ⟨[]⟩ (fun _ => ⟨429, []⟩) 3 := by
  obtain ⟨h1, h2, h3⟩ := generate_message_diagnostics_observability
    String.length (fun _ => 7) ⟨[]⟩ ⟨429, []⟩ (fun _ => ⟨429, []⟩) 3
  exact ⟨h1, h2 (by decide), h3⟩

/-- C9: incremental elaboration through the opaque `env` handle: feeding the
handle returned for `def f := 37` into a subsequent `run_code` of
`#check (rfl: f = 37)` elaborates the new snippet on top of the prior state
and yields feedback with no error-severity message, whereas the same check
without the handle does not see `f` and errors. -/
theorem incremental_elaboration_env_reuse :
    ((run_code (run_code [] "def f := 37" none).2 "#check (rfl: f = 37)"
        (some (run_code [] "def f := 37" none).1.env)).1.messages.all
      fun m => m.severity != "error") = true ∧
    ((run_code [] "#check (rfl: f = 37)" none).1.messages.any
      fun m => m.severity == "error") = true := by
  exact ⟨by decide, by decide⟩

/-- C10: `generate_message_lean_single` submits exactly the two-message
transcript `[system: SYSTEM_MESSAGE, user: input]` with the default
generation parameters of `generate_message`: temperature 0.4, top_p 0.95,
max_tokens 2048, model "gpt-4" (and stream false). -/
theorem generate_message_lean_single_defaults :
    ∀ input : String,
      generate_message_lean_single_payload input =
        { model := "gpt-4"
          messages := [⟨"system", SYSTEM_MESSAGE⟩, ⟨"user", input⟩]
          max_tokens := 2048
          stream := false
          top_p := 0.95
          temperature := 0.4 } :=
  fun _ => rfl

end Pysagredo
